import Mathlib

/-!
# imgff: image format detection from the first four bytes of a file

A shallow embedding of `imgff.go`.  The package exposes `Format` and
`FormatMust`; both delegate to `format`, which issues one `ReadAt` of a
4-byte buffer at offset 0 and compares the buffer with fixed header bytes.

Go values are embedded as follows.

* `byte` is `Fin 256`; the slice `make([]byte, 4)` is a function `Fin 4 → Byte`.
* `FileFormat` and `Error` are Go string types, embedded as `String`.
* Go `error` interface values are embedded as `Option GoError` (`none` is `nil`).
* `*os.File` is embedded by the one method the package calls on it, `ReadAt`.
* `panic(err)` is an explicit outcome of `FormatMust`.
-/

namespace Imgff

/-! ## Data model -/

/-- Go `byte`. -/
abbrev Byte := Fin 256

/-- Go `type FileFormat string`. -/
abbrev FileFormat := String

/-- Constant `JPEG FileFormat = "jpg"`. -/
def JPEG : FileFormat := "jpg"
/-- Constant `PNG FileFormat = "png"`. -/
def PNG : FileFormat := "png"
/-- Constant `BMP FileFormat = "bmp"`. -/
def BMP : FileFormat := "bmp"
/-- Constant `GIF FileFormat = "gif"`. -/
def GIF : FileFormat := "gif"
/-- Constant `AVIF FileFormat = "avif"`. -/
def AVIF : FileFormat := "avif"
/-- Constant `WEBP FileFormat = "webp"`. -/
def WEBP : FileFormat := "webp"

/-- Method `func (f FileFormat) String() string`. -/
def FileFormat.String (f : FileFormat) : String := f

/-- Errors that `(*os.File).ReadAt` of the Go standard library hands back:
`io.EOF`, `os.ErrInvalid`, `os.ErrClosed`, a `syscall.Errno` (with its
platform text), and `*fs.PathError` around one of these. -/
inductive OSError where
  | EOF
  | ErrInvalid
  | ErrClosed
  | Errno (code : Nat) (text : String)
  | PathError (Op Path : String) (Err : OSError)
  deriving DecidableEq

/-- Dynamic values of the Go `error` interface that occur in this package:
a value of the package type `Error` (a string), the `*errors.errorString`
that `fmt.Errorf` builds when its format has no `%w`, the `*fmt.wrapError`
it builds for one `%w`, and an error coming from package `os`. -/
inductive GoError where
  | Error (s : String)
  | errorString (s : String)
  | wrapError (msg : String) (err : GoError)
  | os (e : OSError)
  deriving DecidableEq

/-- Constant `ErrUnknownFormat Error = "unknown format"`. -/
def ErrUnknownFormat : GoError := GoError.Error "unknown format"

/-- Method `Error() string` of the standard-library errors. -/
def OSError.Error : OSError → String
  | .EOF => "EOF"
  | .ErrInvalid => "invalid argument"
  | .ErrClosed => "file already closed"
  | .Errno _ text => text
  | .PathError Op Path Err => Op ++ " " ++ Path ++ ": " ++ Err.Error

/-- Method `Error() string`; for the package type it is
`func (e Error) Error() string { return string(e) }`. -/
def GoError.ErrorText : GoError → String
  | .Error s => s
  | .errorString s => s
  | .wrapError msg _ => msg
  | .os e => e.Error

/-- Function `fmt.Errorf(format)` for a format without verbs. -/
def Errorf (format : String) : GoError := GoError.errorString format

/-- Function `fmt.Errorf(head ++ "%w", err)`: the message is `head` followed by the
text of `err`, and `err` is kept as the wrapped error. -/
def ErrorfW (head : String) (err : GoError) : GoError :=
  GoError.wrapError (head ++ err.ErrorText) err

/-- Function `errors.Unwrap`: the result of the `Unwrap` method, `none` when there is none. -/
def Unwrap : GoError → Option GoError
  | .wrapError _ err => some err
  | .os (.PathError _ _ Err) => some (.os Err)
  | _ => none

/-- Function `errors.Is` along the chain of a standard-library error.  None of
these types has an `Is` method that accepts a target of another package
(`syscall.Errno.Is` only recognises the `os` sentinels), so each link is
compared with `==` and `*fs.PathError` is unwrapped. -/
def OSError.Is : OSError → GoError → Bool
  | .PathError Op Path Err, target =>
      decide (GoError.os (.PathError Op Path Err) = target) || Err.Is target
  | e, target => decide (GoError.os e = target)

/-- Function `errors.Is(err, target)` for a non-nil `err`: compare with `==`,
then follow `Unwrap`.  The comparison is structural; the only target this
package passes is the string-typed `ErrUnknownFormat`, for which Go's `==`
is equality of dynamic type and string. -/
def errorsIs : GoError → GoError → Bool
  | .wrapError msg err, target =>
      decide (GoError.wrapError msg err = target) || errorsIs err target
  | .os e, target => e.Is target
  | e, target => decide (e = target)

/-! ## Header bytes -/

def jpeg0 : Byte := 0xFF
def jpeg1 : Byte := 0xD8

def bmp0 : Byte := 0x42
def bmp1 : Byte := 0x4D

def png0 : Byte := 0x89
def png1 : Byte := 0x50
def png2 : Byte := 0x4E
def png3 : Byte := 0x47

def gif0 : Byte := 0x47
def gif1 : Byte := 0x49
def gif2 : Byte := 0x46
def gif3 : Byte := 0x38

/-! ## Files -/

/-- What one call `n, readErr := file.ReadAt(b, 0)` leaves behind: the buffer
contents after the call, the byte count and the error. -/
structure ReadOutcome where
  b : Fin 4 → Byte
  n : Int
  readErr : Option OSError

/-- A `*os.File`, seen through the only method the package calls on it:
`ReadAt(b, off)` for a 4-byte buffer `b`. -/
structure File where
  ReadAt : (Fin 4 → Byte) → Nat → ReadOutcome

/-- Expression `make([]byte, 4)`: four zero bytes. -/
def make4 : Fin 4 → Byte := fun _ => 0

/-- A file whose `ReadAt` yields the given outcome whatever it is asked. -/
def File.ofOutcome (r : ReadOutcome) : File := ⟨fun _ _ => r⟩

/-- An open regular file holding `content`, with `ReadAt` as documented for
`(*os.File).ReadAt` in the Go standard library: it reads `len(b)` bytes
starting at offset `off`, returns the number of bytes read, and "always
returns a non-nil error when n < len(b). At end of file, that error is
io.EOF."  Buffer positions past the bytes read keep their old value. -/
def File.regular (content : List Byte) : File where
  ReadAt := fun b off =>
    let avail := content.drop off
    { b := fun i => if i.val < avail.length then avail.getD i.val 0 else b i
      n := (min avail.length 4 : Nat)
      readErr := if avail.length < 4 then some OSError.EOF else none }

/-! ## The package functions -/

/-- Function `format` of `imgff.go`: checks and returns the file format. -/
def format (file : File) : FileFormat × Option GoError :=
  let r := file.ReadAt make4 0
  let b := r.b
  match r.readErr with
  | some readErr => ("", some (ErrorfW "failed to read bytes from file: " (.os readErr)))
  | none =>
    if r.n < 4 then
      ("", some (Errorf "failed to determine file format: malformed file"))
    else if b 0 = jpeg0 ∧ b 1 = jpeg1 then
      (JPEG, none)
    else if b 0 = bmp0 ∧ b 1 = bmp1 then
      (BMP, none)
    else if b 0 = png0 ∧ b 1 = png1 ∧ b 2 = png2 ∧ b 3 = png3 then
      (PNG, none)
    else if b 0 = gif0 ∧ b 1 = gif1 ∧ b 2 = gif2 ∧ b 3 = gif3 then
      (GIF, none)
    else
      ("", some ErrUnknownFormat)

/-- Function `Format` of `imgff.go`: tries to determine image file format. -/
def Format (file : File) : FileFormat × Option GoError :=
  format file

/-- How a call of `FormatMust` ends: it returns a tag or it panics with an error. -/
inductive MustResult where
  | returns (f : FileFormat)
  | panics (err : GoError)
  deriving DecidableEq

/-- Function `FormatMust` of `imgff.go`: as `Format`, but panics on every
error that is not `ErrUnknownFormat` according to `errors.Is`. -/
def FormatMust (file : File) : MustResult :=
  match format file with
  | (f, none) => .returns f
  | (f, some err) =>
    if !errorsIs err ErrUnknownFormat then .panics err else .returns f

/-- The error `format` builds when fewer than 4 bytes were read. -/
def errMalformed : GoError :=
  Errorf "failed to determine file format: malformed file"

/-- The error `format` builds around a read error `e`. -/
def errRead (e : OSError) : GoError :=
  ErrorfW "failed to read bytes from file: " (.os e)

/-! ## The read request -/

/-- One request `file.ReadAt(b, off)`: the length of the buffer handed over
and the offset. -/
structure ReadAtCall where
  len : Nat
  off : Nat
  deriving DecidableEq

/-- A computation whose only access to the file is the request
`ReadAt(b, off)`: it either is finished with a value, or hands a buffer and an
offset to the file and goes on with what the call leaves behind.  Such a
computation has no file in scope, so every read it makes is a `readAt` node. -/
inductive FileProg (α : Type) where
  | done (a : α)
  | readAt (b : Fin 4 → Byte) (off : Nat) (next : ReadOutcome → FileProg α)

/-- Runs a computation against a file.  Each `readAt` node is answered by the
`ReadAt` method of the file, called with the buffer and the offset of the node,
and the same call is written to the log: the length of that buffer and that offset. -/
def FileProg.run {α : Type} (file : File) : FileProg α → List ReadAtCall → α × List ReadAtCall
  | .done a, log => (a, log)
  | .readAt b off next, log =>
    (next (file.ReadAt b off)).run file (log ++ [{ len := (List.ofFn b).length, off := off }])

/-- Lines 89 to 113 of `format`: what the function does with the byte count,
the error and the buffer that `ReadAt` left behind. -/
def formatBody (r : ReadOutcome) : FileFormat × Option GoError :=
  let b := r.b
  match r.readErr with
  | some readErr => ("", some (ErrorfW "failed to read bytes from file: " (.os readErr)))
  | none =>
    if r.n < 4 then
      ("", some (Errorf "failed to determine file format: malformed file"))
    else if b 0 = jpeg0 ∧ b 1 = jpeg1 then
      (JPEG, none)
    else if b 0 = bmp0 ∧ b 1 = bmp1 then
      (BMP, none)
    else if b 0 = png0 ∧ b 1 = png1 ∧ b 2 = png2 ∧ b 3 = png3 then
      (PNG, none)
    else if b 0 = gif0 ∧ b 1 = gif1 ∧ b 2 = gif2 ∧ b 3 = gif3 then
      (GIF, none)
    else
      ("", some ErrUnknownFormat)

/-- Function `format` of `imgff.go` as a computation over the file: line 86
makes the buffer, line 88 is the call `file.ReadAt(b, 0)`, and the rest of the
body works on the outcome of that call. -/
def formatProg : FileProg (FileFormat × Option GoError) :=
  .readAt make4 0 (fun r => .done (formatBody r))

/-- Function `format` of `imgff.go` run against a file, with the requests the
file received written to a log. -/
def formatLogged (file : File) (log : List ReadAtCall) :
    (FileFormat × Option GoError) × List ReadAtCall :=
  formatProg.run file log

/-! ## The four checks, one by one -/

/-- The four signatures `format` tests for. -/
inductive Sig where
  | jpeg
  | bmp
  | png
  | gif
  deriving DecidableEq

/-- The tag `format` returns when the check of a signature succeeds. -/
def Sig.tag : Sig → FileFormat
  | .jpeg => JPEG
  | .bmp => BMP
  | .png => PNG
  | .gif => GIF

/-- The condition of the `if` statement that `format` has for a signature. -/
def Sig.check : Sig → (Fin 4 → Byte) → Bool
  | .jpeg, b => decide (b 0 = jpeg0 ∧ b 1 = jpeg1)
  | .bmp, b => decide (b 0 = bmp0 ∧ b 1 = bmp1)
  | .png, b => decide (b 0 = png0 ∧ b 1 = png1 ∧ b 2 = png2 ∧ b 3 = png3)
  | .gif, b => decide (b 0 = gif0 ∧ b 1 = gif1 ∧ b 2 = gif2 ∧ b 3 = gif3)

/-- The order in which `format` runs its checks. -/
def sourceOrder : List Sig := [.jpeg, .bmp, .png, .gif]

/-- The comparison phase with the checks run in a given order: the first check
that succeeds decides the tag, and `ErrUnknownFormat` is returned when none does. -/
def firstMatch (order : List Sig) (b : Fin 4 → Byte) : FileFormat × Option GoError :=
  match order.find? (fun s => s.check b) with
  | some s => (s.tag, none)
  | none => ("", some ErrUnknownFormat)

/-- The function `format` with its four `if` statements taken in a given
order; the read and the two error returns before them are unchanged. -/
def formatOrdered (order : List Sig) (file : File) : FileFormat × Option GoError :=
  let r := file.ReadAt make4 0
  match r.readErr with
  | some readErr => ("", some (ErrorfW "failed to read bytes from file: " (.os readErr)))
  | none =>
    if r.n < 4 then
      ("", some (Errorf "failed to determine file format: malformed file"))
    else
      firstMatch order r.b

/-! ## Auxiliary facts -/

/-- No standard-library error chain contains a value of the package type `Error`. -/
theorem OSError.Is_Error (e : OSError) (s : String) : e.Is (GoError.Error s) = false := by
  induction e with
  | PathError Op Path Err ih => simp [OSError.Is, ih]
  | _ => simp [OSError.Is]

/-- The read-failure error is not `ErrUnknownFormat` for `errors.Is`. -/
theorem errorsIs_errRead (e : OSError) : errorsIs (errRead e) ErrUnknownFormat = false := by
  simp [errRead, ErrorfW, errorsIs, OSError.Is_Error, ErrUnknownFormat]

/-- The malformed-file error is not `ErrUnknownFormat` for `errors.Is`. -/
theorem errorsIs_errMalformed : errorsIs errMalformed ErrUnknownFormat = false := by
  decide

/-- A failed read makes `format` return the empty tag and the wrapped read error. -/
theorem format_of_readErr (file : File) (e : OSError)
    (h : (file.ReadAt make4 0).readErr = some e) :
    format file = ("", some (errRead e)) := by
  simp [format, h, errRead]

/-- A short read without error makes `format` return the malformed-file error. -/
theorem format_of_short (file : File)
    (h : (file.ReadAt make4 0).readErr = none) (hn : (file.ReadAt make4 0).n < 4) :
    format file = ("", some errMalformed) := by
  simp [format, h, hn, errMalformed]

/-- Every result of `format` is one of seven shapes. -/
theorem format_cases (file : File) :
    (∃ e, (file.ReadAt make4 0).readErr = some e ∧ format file = ("", some (errRead e))) ∨
    format file = ("", some errMalformed) ∨
    format file = (JPEG, none) ∨ format file = (BMP, none) ∨
    format file = (PNG, none) ∨ format file = (GIF, none) ∨
    format file = ("", some ErrUnknownFormat) := by
  cases h : (file.ReadAt make4 0).readErr with
  | some e => exact Or.inl ⟨e, rfl, format_of_readErr file e h⟩
  | none =>
    right
    simp only [format, h, errMalformed]
    split_ifs <;> simp

/-- A regular file never reports fewer than 4 bytes together with a nil error. -/
theorem regular_short_read_has_error (content : List Byte)
    (h : ((File.regular content).ReadAt make4 0).n < 4) :
    ((File.regular content).ReadAt make4 0).readErr = some OSError.EOF := by
  simp only [File.regular, List.drop_zero] at h ⊢
  have h4 : content.length < 4 := by omega
  simp [h4]

/-- For a regular file of 0, 1, 2 or 3 bytes `Format` returns the empty tag,
which is none of the six format tags, and the read-failure error wrapping `io.EOF`. -/
theorem Format_regular_short (content : List Byte) (h : content.length < 4) :
    Format (File.regular content) = ("", some (errRead OSError.EOF)) ∧
    (Format (File.regular content)).1 ∉ [JPEG, PNG, BMP, GIF, AVIF, WEBP] := by
  have e1 : Format (File.regular content) = ("", some (errRead OSError.EOF)) := by
    simp [Format, format, File.regular, h, errRead]
  refine ⟨e1, ?_⟩
  rw [e1]
  decide

/-! ## Signature matches -/

/-- C1: when `ReadAt` reports no error and 4 bytes whose first two are `FF D8`,
`Format` returns `(JPEG, nil)`, whatever bytes 2 and 3 are. -/
theorem C1_jpeg (file : File)
    (hErr : (file.ReadAt make4 0).readErr = none) (hn : (file.ReadAt make4 0).n = 4)
    (h0 : (file.ReadAt make4 0).b 0 = 0xFF) (h1 : (file.ReadAt make4 0).b 1 = 0xD8) :
    Format file = (JPEG, none) := by
  simp [Format, format, hErr, hn, h0, h1, jpeg0, jpeg1]

/-- The bytes `FF D8 00 00` give `("jpg", nil)`. -/
theorem C1_jpeg_witness :
    ((File.regular [0xFF, 0xD8, 0x00, 0x00]).ReadAt make4 0).readErr = none ∧
    ((File.regular [0xFF, 0xD8, 0x00, 0x00]).ReadAt make4 0).n = 4 ∧
    Format (File.regular [0xFF, 0xD8, 0x00, 0x00]) = ("jpg", none) :=
  ⟨by decide, by decide,
    C1_jpeg (File.regular [0xFF, 0xD8, 0x00, 0x00]) (by decide) (by decide) (by decide)
      (by decide)⟩

/-- C2: when `ReadAt` reports no error and 4 bytes whose first two are `42 4D`,
`Format` returns `(BMP, nil)`, whatever bytes 2 and 3 are. -/
theorem C2_bmp (file : File)
    (hErr : (file.ReadAt make4 0).readErr = none) (hn : (file.ReadAt make4 0).n = 4)
    (h0 : (file.ReadAt make4 0).b 0 = 0x42) (h1 : (file.ReadAt make4 0).b 1 = 0x4D) :
    Format file = (BMP, none) := by
  simp [Format, format, hErr, hn, h0, h1, jpeg0, bmp0, bmp1]

/-- The bytes `42 4D 99 99` give `("bmp", nil)`. -/
theorem C2_bmp_witness :
    ((File.regular [0x42, 0x4D, 0x99, 0x99]).ReadAt make4 0).readErr = none ∧
    ((File.regular [0x42, 0x4D, 0x99, 0x99]).ReadAt make4 0).n = 4 ∧
    Format (File.regular [0x42, 0x4D, 0x99, 0x99]) = ("bmp", none) :=
  ⟨by decide, by decide,
    C2_bmp (File.regular [0x42, 0x4D, 0x99, 0x99]) (by decide) (by decide) (by decide)
      (by decide)⟩

/-- C3: when `ReadAt` reports no error and the 4 bytes `89 50 4E 47`,
`Format` returns `(PNG, nil)`. -/
theorem C3_png (file : File)
    (hErr : (file.ReadAt make4 0).readErr = none) (hn : (file.ReadAt make4 0).n = 4)
    (h0 : (file.ReadAt make4 0).b 0 = 0x89) (h1 : (file.ReadAt make4 0).b 1 = 0x50)
    (h2 : (file.ReadAt make4 0).b 2 = 0x4E) (h3 : (file.ReadAt make4 0).b 3 = 0x47) :
    Format file = (PNG, none) := by
  simp [Format, format, hErr, hn, h0, h1, h2, h3, jpeg0, bmp0, png0, png1, png2, png3]

/-- The bytes `89 50 4E 47` give `("png", nil)`. -/
theorem C3_png_witness :
    ((File.regular [0x89, 0x50, 0x4E, 0x47]).ReadAt make4 0).readErr = none ∧
    ((File.regular [0x89, 0x50, 0x4E, 0x47]).ReadAt make4 0).n = 4 ∧
    Format (File.regular [0x89, 0x50, 0x4E, 0x47]) = ("png", none) :=
  ⟨by decide, by decide,
    C3_png (File.regular [0x89, 0x50, 0x4E, 0x47]) (by decide) (by decide) (by decide)
      (by decide) (by decide) (by decide)⟩

/-- C4: when `ReadAt` reports no error and the 4 bytes `47 49 46 38`,
`Format` returns `(GIF, nil)`. -/
theorem C4_gif (file : File)
    (hErr : (file.ReadAt make4 0).readErr = none) (hn : (file.ReadAt make4 0).n = 4)
    (h0 : (file.ReadAt make4 0).b 0 = 0x47) (h1 : (file.ReadAt make4 0).b 1 = 0x49)
    (h2 : (file.ReadAt make4 0).b 2 = 0x46) (h3 : (file.ReadAt make4 0).b 3 = 0x38) :
    Format file = (GIF, none) := by
  simp [Format, format, hErr, hn, h0, h1, h2, h3, jpeg0, bmp0, png0, gif0, gif1, gif2, gif3]

/-- The bytes `47 49 46 38` give `("gif", nil)`. -/
theorem C4_gif_witness :
    ((File.regular [0x47, 0x49, 0x46, 0x38]).ReadAt make4 0).readErr = none ∧
    ((File.regular [0x47, 0x49, 0x46, 0x38]).ReadAt make4 0).n = 4 ∧
    Format (File.regular [0x47, 0x49, 0x46, 0x38]) = ("gif", none) :=
  ⟨by decide, by decide,
    C4_gif (File.regular [0x47, 0x49, 0x46, 0x38]) (by decide) (by decide) (by decide)
      (by decide) (by decide) (by decide)⟩

/-- C5: when `ReadAt` reports no error and 4 bytes that match none of the four
signatures, `Format` returns the empty tag together with `ErrUnknownFormat`. -/
theorem C5_unknown (file : File)
    (hErr : (file.ReadAt make4 0).readErr = none) (hn : (file.ReadAt make4 0).n = 4)
    (hJpeg : ¬ ((file.ReadAt make4 0).b 0 = 0xFF ∧ (file.ReadAt make4 0).b 1 = 0xD8))
    (hBmp : ¬ ((file.ReadAt make4 0).b 0 = 0x42 ∧ (file.ReadAt make4 0).b 1 = 0x4D))
    (hPng : ¬ ((file.ReadAt make4 0).b 0 = 0x89 ∧ (file.ReadAt make4 0).b 1 = 0x50 ∧
      (file.ReadAt make4 0).b 2 = 0x4E ∧ (file.ReadAt make4 0).b 3 = 0x47))
    (hGif : ¬ ((file.ReadAt make4 0).b 0 = 0x47 ∧ (file.ReadAt make4 0).b 1 = 0x49 ∧
      (file.ReadAt make4 0).b 2 = 0x46 ∧ (file.ReadAt make4 0).b 3 = 0x38)) :
    Format file = ("", some ErrUnknownFormat) := by
  have e1 : format file = ("", some ErrUnknownFormat) := by
    unfold format
    simp only [hErr, hn, jpeg0, jpeg1, bmp0, bmp1, png0, png1, png2, png3,
      gif0, gif1, gif2, gif3]
    rw [if_neg (by decide), if_neg hJpeg, if_neg hBmp, if_neg hPng, if_neg hGif]
  exact e1

/-- The bytes `00 01 02 03` give `("", ErrUnknownFormat)`. -/
theorem C5_unknown_witness :
    ((File.regular [0x00, 0x01, 0x02, 0x03]).ReadAt make4 0).readErr = none ∧
    ((File.regular [0x00, 0x01, 0x02, 0x03]).ReadAt make4 0).n = 4 ∧
    Format (File.regular [0x00, 0x01, 0x02, 0x03]) = ("", some (GoError.Error "unknown format")) :=
  ⟨by decide, by decide,
    C5_unknown (File.regular [0x00, 0x01, 0x02, 0x03]) (by decide) (by decide) (by decide)
      (by decide) (by decide) (by decide)⟩

/-! ## Failures -/

/-- C6: for the 2-byte content `FF D8` no tag is returned, but the read itself
reports `io.EOF`, so `Format` returns the read-failure error wrapping `io.EOF`
and not the malformed-file error of the `n < 4` branch. -/
theorem C6_short_file_not_malformed :
    Format (File.regular [0xFF, 0xD8]) = ("", some (errRead OSError.EOF)) ∧
    Unwrap (errRead OSError.EOF) = some (GoError.os OSError.EOF) ∧
    Format (File.regular [0xFF, 0xD8]) ≠ ("", some errMalformed) := by
  decide

/-- C7: when `ReadAt` reports an error `e`, whatever count and buffer come with
it, `Format` returns the empty tag and a non-nil error whose `Unwrap` is `e`. -/
theorem C7_read_failure (file : File) (e : OSError)
    (h : (file.ReadAt make4 0).readErr = some e) :
    ∃ err, Format file = ("", some err) ∧ Unwrap err = some (GoError.os e) ∧
      err = GoError.wrapError ("failed to read bytes from file: " ++ e.Error) (GoError.os e) :=
  ⟨errRead e, format_of_readErr file e h, rfl, rfl⟩

/-- A read that delivers the 4 bytes of the PNG signature together with an
`EIO` error is reported as a read failure. -/
theorem C7_read_failure_witness :
    ((File.ofOutcome ⟨![0x89, 0x50, 0x4E, 0x47], 4,
        some (.PathError "read" "a.png" (.Errno 5 "input/output error"))⟩).ReadAt make4 0).readErr
      = some (.PathError "read" "a.png" (.Errno 5 "input/output error")) ∧
    ∃ err, Format (File.ofOutcome ⟨![0x89, 0x50, 0x4E, 0x47], 4,
        some (.PathError "read" "a.png" (.Errno 5 "input/output error"))⟩) = ("", some err) ∧
      Unwrap err = some (GoError.os (.PathError "read" "a.png" (.Errno 5 "input/output error"))) ∧
      err = GoError.wrapError ("failed to read bytes from file: " ++
          (OSError.PathError "read" "a.png" (.Errno 5 "input/output error")).Error)
        (GoError.os (.PathError "read" "a.png" (.Errno 5 "input/output error"))) :=
  ⟨rfl, C7_read_failure _ _ rfl⟩

/-! ## FormatMust -/

/-- C8: `FormatMust` panics, with the error of `Format`, exactly when `Format`
fails with an error other than `ErrUnknownFormat`; when `Format` succeeds or
fails with `ErrUnknownFormat` it returns the tag of `Format`. -/
theorem C8_panic_iff (file : File) :
    (∀ err, FormatMust file = .panics err ↔
      ((Format file).2 = some err ∧ err ≠ ErrUnknownFormat)) ∧
    ((∃ err, FormatMust file = .panics err) ↔
      (∃ err, (Format file).2 = some err ∧ err ≠ ErrUnknownFormat)) ∧
    (((Format file).2 = none ∨ (Format file).2 = some ErrUnknownFormat) →
      FormatMust file = .returns (Format file).1) := by
  have key : ∀ err, FormatMust file = .panics err ↔
      ((Format file).2 = some err ∧ err ≠ ErrUnknownFormat) := by
    intro err
    rcases format_cases file with ⟨e, -, h⟩ | h | h | h | h | h | h
    · have hne : errRead e ≠ ErrUnknownFormat := by
        simp [errRead, ErrorfW, ErrUnknownFormat]
      simp only [FormatMust, Format, h, errorsIs_errRead]
      constructor
      · intro hp
        have : errRead e = err := by simpa using hp
        subst this
        exact ⟨rfl, hne⟩
      · rintro ⟨hp, -⟩
        have : errRead e = err := by simpa using hp
        subst this
        rfl
    · have hne : errMalformed ≠ ErrUnknownFormat := by decide
      simp only [FormatMust, Format, h, errorsIs_errMalformed]
      constructor
      · intro hp
        have : errMalformed = err := by simpa using hp
        subst this
        exact ⟨rfl, hne⟩
      · rintro ⟨hp, -⟩
        have : errMalformed = err := by simpa using hp
        subst this
        rfl
    all_goals simp [FormatMust, Format, h, errorsIs, ErrUnknownFormat]
    intro hp
    exact hp.symm
  refine ⟨key, ?_, ?_⟩
  · constructor
    · rintro ⟨err, hp⟩
      exact ⟨err, (key err).1 hp⟩
    · rintro ⟨err, hp⟩
      exact ⟨err, (key err).2 hp⟩
  · rcases format_cases file with ⟨e, -, h⟩ | h | h | h | h | h | h
    · have hne : errRead e ≠ ErrUnknownFormat := by
        simp [errRead, ErrorfW, ErrUnknownFormat]
      simp [Format, h, hne]
    · have hne : errMalformed ≠ ErrUnknownFormat := by decide
      simp [Format, h, hne]
    all_goals simp [FormatMust, Format, h, errorsIs, ErrUnknownFormat]

/-- C9: whenever `FormatMust` returns, its tag is the tag of `Format`; it is
empty when `Format` fails with `ErrUnknownFormat`, and it is JPEG, BMP, PNG or
GIF exactly when `Format` returns that tag with a nil error. -/
theorem C9_same_tag (file : File) (f : FileFormat) (h : FormatMust file = .returns f) :
    f = (Format file).1 ∧
    ((Format file).2 = some ErrUnknownFormat → f = "") ∧
    (∀ t ∈ [JPEG, BMP, PNG, GIF], f = t ↔ Format file = (t, none)) := by
  rcases format_cases file with ⟨e, -, hf⟩ | hf | hf | hf | hf | hf | hf
  · simp [FormatMust, hf, errorsIs_errRead] at h
  · simp [FormatMust, hf, errorsIs_errMalformed] at h
  all_goals
    simp only [FormatMust, hf, errorsIs, ErrUnknownFormat, decide_True, Bool.not_true,
      Bool.false_eq_true, if_false, MustResult.returns.injEq] at h
    subst h
    simp only [Format, hf]
    decide

/-- The bytes `00 01 02 03` make `FormatMust` return the empty tag, as `Format` does. -/
theorem C9_same_tag_witness :
    FormatMust (File.regular [0x00, 0x01, 0x02, 0x03]) = .returns "" ∧
    "" = (Format (File.regular [0x00, 0x01, 0x02, 0x03])).1 ∧
    ((Format (File.regular [0x00, 0x01, 0x02, 0x03])).2 = some ErrUnknownFormat → "" = "") ∧
    (∀ t ∈ [JPEG, BMP, PNG, GIF],
      "" = t ↔ Format (File.regular [0x00, 0x01, 0x02, 0x03]) = (t, none)) :=
  ⟨by decide, C9_same_tag (File.regular [0x00, 0x01, 0x02, 0x03]) "" (by decide)⟩

/-- C10: the tag returned by `Format` and by `FormatMust` is never AVIF and
never WEBP. -/
theorem C10_never_avif_webp (file : File) :
    (Format file).1 ≠ AVIF ∧ (Format file).1 ≠ WEBP ∧
    FormatMust file ≠ .returns AVIF ∧ FormatMust file ≠ .returns WEBP := by
  rcases format_cases file with ⟨e, -, hf⟩ | hf | hf | hf | hf | hf | hf
  · simp only [Format, FormatMust, hf, errorsIs_errRead]
    refine ⟨by decide, by decide, ?_, ?_⟩ <;> simp
  · simp only [Format, FormatMust, hf, errorsIs_errMalformed]
    decide
  all_goals
    simp only [Format, FormatMust, hf]
    decide

/-- The function `format` is its body applied to the outcome of the read at offset 0. -/
theorem format_eq_formatBody (file : File) :
    format file = formatBody (file.ReadAt make4 0) := rfl

/-- Running `format` against a file gives the result of `format` and adds to the
log the one request the file received. -/
theorem formatLogged_eq (file : File) (log : List ReadAtCall) :
    formatLogged file log = (format file, log ++ [{ len := 4, off := 0 }]) := by
  simp only [formatLogged, formatProg, FileProg.run, format_eq_formatBody, List.length_ofFn]

/-- The result of `format` is a function of the outcome of its one read. -/
theorem format_congr (f1 f2 : File) (h : f1.ReadAt make4 0 = f2.ReadAt make4 0) :
    format f1 = format f2 := by
  unfold format
  rw [h]

/-- The outcome of reading 4 bytes at offset 0 from a regular file of at least 4 bytes. -/
theorem regular_read_full (content : List Byte) (h : 4 ≤ content.length) :
    (File.regular content).ReadAt make4 0 =
      { b := fun i => (content.take 4).getD i.val 0, n := 4, readErr := none } := by
  have hlt : ¬ content.length < 4 := by omega
  have hmin : min content.length 4 = 4 := by omega
  simp only [File.regular, List.drop_zero, hlt, hmin, if_false]
  congr 1
  funext i
  have hi : i.val < content.length := by omega
  simp [hi, List.getD_eq_getElem?_getD, List.getElem?_take]

/-! ## One read of four bytes -/

/-- C11: two files of at least 4 bytes that agree on their first 4 bytes are
both read without error and get the same tag and the same error from `Format`,
so bytes at offset 4 and beyond have no influence; the same holds for any two
files whose reads deliver the same full buffer without error; and `Format`
sends exactly one request, for a 4-byte buffer at offset 0. -/
theorem C11_first_four_bytes (c1 c2 : List Byte)
    (h1 : 4 ≤ c1.length) (h2 : 4 ≤ c2.length) (h : c1.take 4 = c2.take 4) :
    ((File.regular c1).ReadAt make4 0).readErr = none ∧
    ((File.regular c2).ReadAt make4 0).readErr = none ∧
    Format (File.regular c1) = Format (File.regular c2) ∧
    (∀ f1 f2 : File, (f1.ReadAt make4 0).readErr = none → (f2.ReadAt make4 0).readErr = none →
      4 ≤ (f1.ReadAt make4 0).n → 4 ≤ (f2.ReadAt make4 0).n →
      (f1.ReadAt make4 0).b = (f2.ReadAt make4 0).b → Format f1 = Format f2) ∧
    (∀ (file : File) (log : List ReadAtCall),
      formatLogged file log = (Format file, log ++ [{ len := 4, off := 0 }])) := by
  refine ⟨?_, ?_, ?_, ?_, ?_⟩
  · rw [regular_read_full c1 h1]
  · rw [regular_read_full c2 h2]
  · apply format_congr
    rw [regular_read_full c1 h1, regular_read_full c2 h2, h]
  · intro f1 f2 e1 e2 n1 n2 hb
    have m1 : ¬ (f1.ReadAt make4 0).n < 4 := by omega
    have m2 : ¬ (f2.ReadAt make4 0).n < 4 := by omega
    simp only [Format, format, e1, e2, m1, m2, hb, if_false]
  · intro file log
    exact formatLogged_eq file log

/-- Two PNG files that differ from offset 4 on get the same result. -/
theorem C11_first_four_bytes_witness :
    4 ≤ [(0x89 : Byte), 0x50, 0x4E, 0x47, 0x0D, 0x0A].length ∧
    4 ≤ [(0x89 : Byte), 0x50, 0x4E, 0x47, 0xFF].length ∧
    [(0x89 : Byte), 0x50, 0x4E, 0x47, 0x0D, 0x0A].take 4 = [(0x89 : Byte), 0x50, 0x4E, 0x47, 0xFF].take 4 ∧
    Format (File.regular [0x89, 0x50, 0x4E, 0x47, 0x0D, 0x0A]) =
      Format (File.regular [0x89, 0x50, 0x4E, 0x47, 0xFF]) ∧
    (formatLogged (File.regular [0x89, 0x50, 0x4E, 0x47, 0x0D, 0x0A]) []).2 =
      [{ len := 4, off := 0 }] :=
  ⟨by decide, by decide, by decide,
    (C11_first_four_bytes [0x89, 0x50, 0x4E, 0x47, 0x0D, 0x0A] [0x89, 0x50, 0x4E, 0x47, 0xFF]
      (by decide) (by decide) (by decide)).2.2.1,
    congrArg Prod.snd ((C11_first_four_bytes [0x89, 0x50, 0x4E, 0x47, 0x0D, 0x0A]
      [0x89, 0x50, 0x4E, 0x47, 0xFF] (by decide) (by decide) (by decide)).2.2.2.2
        (File.regular [0x89, 0x50, 0x4E, 0x47, 0x0D, 0x0A]) [])⟩

/-! ## Tags as strings -/

/-- C12: `String()` gives `"jpg"`, `"png"`, `"bmp"`, `"gif"`, `"avif"`, `"webp"` for
the six constants; the six names are pairwise distinct and none is empty. -/
theorem C12_string_names :
    FileFormat.String JPEG = "jpg" ∧ FileFormat.String PNG = "png" ∧
    FileFormat.String BMP = "bmp" ∧ FileFormat.String GIF = "gif" ∧
    FileFormat.String AVIF = "avif" ∧ FileFormat.String WEBP = "webp" ∧
    ([JPEG, PNG, BMP, GIF, AVIF, WEBP].map FileFormat.String).Nodup ∧
    "" ∉ [JPEG, PNG, BMP, GIF, AVIF, WEBP].map FileFormat.String := by
  decide

/-! ## Error kinds -/

/-- C13: when `ReadAt` reports no error but fewer than 4 bytes, `Format`
returns the empty tag and the malformed-file error, whatever the buffer holds;
that error is not `ErrUnknownFormat`, also for `errors.Is`, and wraps nothing. -/
theorem C13_short_read (file : File)
    (hErr : (file.ReadAt make4 0).readErr = none) (hn : (file.ReadAt make4 0).n < 4) :
    Format file =
      ("", some (GoError.errorString "failed to determine file format: malformed file")) ∧
    GoError.errorString "failed to determine file format: malformed file" ≠ ErrUnknownFormat ∧
    errorsIs (GoError.errorString "failed to determine file format: malformed file")
      ErrUnknownFormat = false ∧
    Unwrap (GoError.errorString "failed to determine file format: malformed file") = none :=
  ⟨format_of_short file hErr hn, by decide, by decide, rfl⟩

/-- A read of 2 bytes without error is reported as malformed although the
buffer starts with the JPEG signature. -/
theorem C13_short_read_witness :
    ((File.ofOutcome ⟨![0xFF, 0xD8, 0x00, 0x00], 2, none⟩).ReadAt make4 0).readErr = none ∧
    ((File.ofOutcome ⟨![0xFF, 0xD8, 0x00, 0x00], 2, none⟩).ReadAt make4 0).n < 4 ∧
    Format (File.ofOutcome ⟨![0xFF, 0xD8, 0x00, 0x00], 2, none⟩) =
      ("", some (GoError.errorString "failed to determine file format: malformed file")) :=
  ⟨rfl, by decide,
    (C13_short_read (File.ofOutcome ⟨![0xFF, 0xD8, 0x00, 0x00], 2, none⟩) rfl (by decide)).1⟩

/-- C14: when `Format` returns the sentinel `ErrUnknownFormat` itself, the read
reported no error, delivered the full 4 bytes (the count is not below 4, hence
4 for a count bounded by the buffer length), and none of the JPEG, BMP, PNG and
GIF signatures matches the buffer. -/
theorem C14_unknown_only_after_full_read (file : File)
    (h : (Format file).2 = some ErrUnknownFormat) :
    (file.ReadAt make4 0).readErr = none ∧
    4 ≤ (file.ReadAt make4 0).n ∧
    ((file.ReadAt make4 0).n ≤ 4 → (file.ReadAt make4 0).n = 4) ∧
    ¬ ((file.ReadAt make4 0).b 0 = 0xFF ∧ (file.ReadAt make4 0).b 1 = 0xD8) ∧
    ¬ ((file.ReadAt make4 0).b 0 = 0x42 ∧ (file.ReadAt make4 0).b 1 = 0x4D) ∧
    ¬ ((file.ReadAt make4 0).b 0 = 0x89 ∧ (file.ReadAt make4 0).b 1 = 0x50 ∧
      (file.ReadAt make4 0).b 2 = 0x4E ∧ (file.ReadAt make4 0).b 3 = 0x47) ∧
    ¬ ((file.ReadAt make4 0).b 0 = 0x47 ∧ (file.ReadAt make4 0).b 1 = 0x49 ∧
      (file.ReadAt make4 0).b 2 = 0x46 ∧ (file.ReadAt make4 0).b 3 = 0x38) := by
  cases hr : (file.ReadAt make4 0).readErr with
  | some e =>
    rw [Format, format_of_readErr file e hr] at h
    simp [errRead, ErrorfW, ErrUnknownFormat] at h
  | none =>
    simp only [Format, format, hr, jpeg0, jpeg1, bmp0, bmp1, png0, png1, png2, png3,
      gif0, gif1, gif2, gif3] at h
    split_ifs at h with hn hJ hB hP hG
    all_goals first
      | exact absurd h (by decide)
      | exact ⟨rfl, by omega, fun hle => by omega, hJ, hB, hP, hG⟩

/-- The bytes `00 01 02 03` are reported as unknown after a full read. -/
theorem C14_unknown_only_after_full_read_witness :
    (Format (File.regular [0x00, 0x01, 0x02, 0x03])).2 = some ErrUnknownFormat ∧
    ((File.regular [0x00, 0x01, 0x02, 0x03]).ReadAt make4 0).readErr = none ∧
    4 ≤ ((File.regular [0x00, 0x01, 0x02, 0x03]).ReadAt make4 0).n :=
  ⟨by decide,
    (C14_unknown_only_after_full_read (File.regular [0x00, 0x01, 0x02, 0x03]) (by decide)).1,
    (C14_unknown_only_after_full_read (File.regular [0x00, 0x01, 0x02, 0x03]) (by decide)).2.1⟩

/-! ## Soundness of a match -/

/-- C15: when `Format` returns a nil error, the read reported no error and
delivered the full 4 bytes, the tag is one of JPEG, BMP, PNG, GIF, and the
signature of the returned tag is at the start of the buffer. -/
theorem C15_match_sound (file : File) (h : (Format file).2 = none) :
    (file.ReadAt make4 0).readErr = none ∧
    4 ≤ (file.ReadAt make4 0).n ∧
    ((file.ReadAt make4 0).n ≤ 4 → (file.ReadAt make4 0).n = 4) ∧
    (Format file).1 ∈ [JPEG, BMP, PNG, GIF] ∧
    ((Format file).1 = JPEG →
      (file.ReadAt make4 0).b 0 = 0xFF ∧ (file.ReadAt make4 0).b 1 = 0xD8) ∧
    ((Format file).1 = BMP →
      (file.ReadAt make4 0).b 0 = 0x42 ∧ (file.ReadAt make4 0).b 1 = 0x4D) ∧
    ((Format file).1 = PNG →
      (file.ReadAt make4 0).b 0 = 0x89 ∧ (file.ReadAt make4 0).b 1 = 0x50 ∧
      (file.ReadAt make4 0).b 2 = 0x4E ∧ (file.ReadAt make4 0).b 3 = 0x47) ∧
    ((Format file).1 = GIF →
      (file.ReadAt make4 0).b 0 = 0x47 ∧ (file.ReadAt make4 0).b 1 = 0x49 ∧
      (file.ReadAt make4 0).b 2 = 0x46 ∧ (file.ReadAt make4 0).b 3 = 0x38) := by
  cases hr : (file.ReadAt make4 0).readErr with
  | some e =>
    rw [Format, format_of_readErr file e hr] at h
    simp at h
  | none =>
    simp only [Format, format, hr, jpeg0, jpeg1, bmp0, bmp1, png0, png1, png2, png3,
      gif0, gif1, gif2, gif3] at h ⊢
    split_ifs at h ⊢ with hn hJ hB hP hG
    all_goals first
      | exact absurd h (by decide)
      | exact ⟨by trivial, by omega, fun hle => by omega, by decide, fun _ => hJ,
          fun e => absurd e (by decide), fun e => absurd e (by decide),
          fun e => absurd e (by decide)⟩
      | exact ⟨by trivial, by omega, fun hle => by omega, by decide,
          fun e => absurd e (by decide), fun _ => hB, fun e => absurd e (by decide),
          fun e => absurd e (by decide)⟩
      | exact ⟨by trivial, by omega, fun hle => by omega, by decide,
          fun e => absurd e (by decide), fun e => absurd e (by decide), fun _ => hP,
          fun e => absurd e (by decide)⟩
      | exact ⟨by trivial, by omega, fun hle => by omega, by decide,
          fun e => absurd e (by decide), fun e => absurd e (by decide),
          fun e => absurd e (by decide), fun _ => hG⟩

/-- A GIF header gives a nil error, the tag GIF and a full read. -/
theorem C15_match_sound_witness :
    (Format (File.regular [0x47, 0x49, 0x46, 0x38, 0x39, 0x61])).2 = none ∧
    ((File.regular [0x47, 0x49, 0x46, 0x38, 0x39, 0x61]).ReadAt make4 0).readErr = none ∧
    (Format (File.regular [0x47, 0x49, 0x46, 0x38, 0x39, 0x61])).1 ∈ [JPEG, BMP, PNG, GIF] :=
  ⟨by decide,
    (C15_match_sound (File.regular [0x47, 0x49, 0x46, 0x38, 0x39, 0x61]) (by decide)).1,
    (C15_match_sound (File.regular [0x47, 0x49, 0x46, 0x38, 0x39, 0x61]) (by decide)).2.2.2.1⟩

/-! ## Order of the checks -/

/-- No buffer passes the checks of two different signatures. -/
theorem Sig.check_exclusive (b : Fin 4 → Byte) (s t : Sig)
    (hs : s.check b = true) (ht : t.check b = true) : s = t := by
  cases s <;> cases t <;>
    first
      | rfl
      | (simp only [Sig.check, decide_eq_true_eq] at hs ht
         exact absurd (hs.1.symm.trans ht.1) (by decide))

/-- With a test that at most one element passes, `find?` gives the same answer
on a list and on each of its permutations. -/
theorem find?_perm_of_exclusive {α : Type} (p : α → Bool)
    (hp : ∀ x y, p x = true → p y = true → x = y) {l1 l2 : List α} (h : l1.Perm l2) :
    l1.find? p = l2.find? p := by
  cases h2 : l2.find? p with
  | none =>
    rw [List.find?_eq_none] at h2 ⊢
    intro x hx
    exact h2 x (h.mem_iff.1 hx)
  | some a =>
    have ha : p a = true := List.find?_some h2
    have hmem : a ∈ l1 := h.mem_iff.2 (List.mem_of_find?_eq_some h2)
    cases h1 : l1.find? p with
    | none =>
      rw [List.find?_eq_none] at h1
      exact absurd ha (h1 a hmem)
    | some c =>
      rw [hp c a (List.find?_some h1) ha]

/-- The comparison phase does not depend on the order of the checks. -/
theorem firstMatch_perm (order : List Sig) (h : order.Perm sourceOrder) (b : Fin 4 → Byte) :
    firstMatch order b = firstMatch sourceOrder b := by
  unfold firstMatch
  rw [find?_perm_of_exclusive (fun s => s.check b) (Sig.check_exclusive b) h]

/-- The function `format` is `formatOrdered` in the order of the source. -/
theorem formatOrdered_sourceOrder (file : File) :
    formatOrdered sourceOrder file = format file := by
  cases hr : (file.ReadAt make4 0).readErr with
  | some e => simp only [formatOrdered, format, hr]
  | none =>
    simp only [formatOrdered, format, hr, firstMatch, sourceOrder]
    by_cases hn : (file.ReadAt make4 0).n < 4
    · rw [if_pos hn, if_pos hn]
    · rw [if_neg hn, if_neg hn]
      by_cases hJ : (file.ReadAt make4 0).b 0 = jpeg0 ∧ (file.ReadAt make4 0).b 1 = jpeg1
      · have c : Sig.check Sig.jpeg (file.ReadAt make4 0).b = true := by
          simpa [Sig.check] using hJ
        simp only [List.find?_cons, c, if_pos hJ, Sig.tag]
      · have cJ : Sig.check Sig.jpeg (file.ReadAt make4 0).b = false := by
          simpa [Sig.check] using hJ
        by_cases hB : (file.ReadAt make4 0).b 0 = bmp0 ∧ (file.ReadAt make4 0).b 1 = bmp1
        · have c : Sig.check Sig.bmp (file.ReadAt make4 0).b = true := by
            simpa [Sig.check] using hB
          simp only [List.find?_cons, cJ, c, if_neg hJ, if_pos hB, Sig.tag]
        · have cB : Sig.check Sig.bmp (file.ReadAt make4 0).b = false := by
            simpa [Sig.check] using hB
          by_cases hP : (file.ReadAt make4 0).b 0 = png0 ∧ (file.ReadAt make4 0).b 1 = png1 ∧
              (file.ReadAt make4 0).b 2 = png2 ∧ (file.ReadAt make4 0).b 3 = png3
          · have c : Sig.check Sig.png (file.ReadAt make4 0).b = true := by
              simpa [Sig.check] using hP
            simp only [List.find?_cons, cJ, cB, c, if_neg hJ, if_neg hB, if_pos hP, Sig.tag]
          · have cP : Sig.check Sig.png (file.ReadAt make4 0).b = false := by
              simpa [Sig.check] using hP
            by_cases hG : (file.ReadAt make4 0).b 0 = gif0 ∧ (file.ReadAt make4 0).b 1 = gif1 ∧
                (file.ReadAt make4 0).b 2 = gif2 ∧ (file.ReadAt make4 0).b 3 = gif3
            · have c : Sig.check Sig.gif (file.ReadAt make4 0).b = true := by
                simpa [Sig.check] using hG
              simp only [List.find?_cons, cJ, cB, cP, c, if_neg hJ, if_neg hB, if_neg hP,
                if_pos hG, Sig.tag]
            · have cG : Sig.check Sig.gif (file.ReadAt make4 0).b = false := by
                simpa [Sig.check] using hG
              simp only [List.find?_cons, List.find?_nil, cJ, cB, cP, cG, if_neg hJ, if_neg hB,
                if_neg hP, if_neg hG]

/-- C16: no 4-byte buffer satisfies more than one of the JPEG, BMP, PNG and GIF
checks, so running the four checks in any other order, first match wins, gives
the result of `format`. -/
theorem C16_order_irrelevant (order : List Sig) (h : order.Perm [Sig.jpeg, Sig.bmp, Sig.png, Sig.gif]) :
    (∀ (b : Fin 4 → Byte) (s t : Sig), s.check b = true → t.check b = true → s = t) ∧
    (∀ file : File, formatOrdered order file = format file) ∧
    (∀ file : File, formatOrdered order file = Format file) := by
  have key : ∀ file : File, formatOrdered order file = format file := by
    intro file
    rw [← formatOrdered_sourceOrder file]
    simp only [formatOrdered]
    rw [firstMatch_perm order h]
  exact ⟨Sig.check_exclusive, key, key⟩

/-- Running the checks in the reverse order still finds the PNG header. -/
theorem C16_order_irrelevant_witness :
    [Sig.gif, Sig.png, Sig.bmp, Sig.jpeg].Perm [Sig.jpeg, Sig.bmp, Sig.png, Sig.gif] ∧
    formatOrdered [Sig.gif, Sig.png, Sig.bmp, Sig.jpeg] (File.regular [0x89, 0x50, 0x4E, 0x47]) =
      format (File.regular [0x89, 0x50, 0x4E, 0x47]) ∧
    format (File.regular [0x89, 0x50, 0x4E, 0x47]) = (PNG, none) :=
  ⟨by decide,
    (C16_order_irrelevant [Sig.gif, Sig.png, Sig.bmp, Sig.jpeg] (by decide)).2.1
      (File.regular [0x89, 0x50, 0x4E, 0x47]),
    by decide⟩

/-! ## Tag and error -/

/-- C17: `Format` returns the empty tag exactly when it returns a non-nil error,
and `FormatMust` returns the empty tag exactly when `Format` fails with
`ErrUnknownFormat`. -/
theorem C17_empty_tag_iff_error (file : File) :
    ((Format file).1 = "" ↔ (Format file).2 ≠ none) ∧
    (FormatMust file = .returns "" ↔ (Format file).2 = some ErrUnknownFormat) := by
  rcases format_cases file with ⟨e, -, hf⟩ | hf | hf | hf | hf | hf | hf
  · have hne : errRead e ≠ ErrUnknownFormat := by
      simp [errRead, ErrorfW, ErrUnknownFormat]
    simp [Format, FormatMust, hf, errorsIs_errRead, hne]
  · have hne : errMalformed ≠ ErrUnknownFormat := by decide
    simp [Format, FormatMust, hf, errorsIs_errMalformed, hne]
  all_goals
    simp only [Format, FormatMust, hf]
    decide

end Imgff
